import Mathlib

/-!
# Verification of the RAG100X comparative evaluation harness

Shallow embedding, in Lean 4, of the core logic of the RAG100X repository:
the chunk-size evaluation notebook (`04_chunksize_rag_eval.ipynb`) and the
contextual-chunk-header notebook concatenated with it.

Modelling conventions:
* External collaborators (the query engine, the GPT judges, the Cohere
  reranker, the question generator) are parameters: functions supplied to
  the embedded code.  A collaborator call that can raise a Python exception
  is modelled with `Except String`; an uncaught exception propagates as an
  `Except.error`, exactly as a Python exception aborts the enclosing code.
* Python's process-global random state is modelled as an infinite stream of
  draws, `g : Nat -> Nat`; `random.sample` consumes the stream by selection
  without replacement over positions.
* Wall-clock latencies and relevance scores are rationals (`Rat`).
* The llama-index global `Settings` object is a record threaded explicitly
  through each call that mutates it.
-/

namespace RAG100X

/-- Decidable equality for `Except`, used to evaluate the embedded code on
concrete inputs. -/
instance {ε α : Type} [DecidableEq ε] [DecidableEq α] : DecidableEq (Except ε α) := fun x y =>
  match x, y with
  | .error a, .error b =>
    if h : a = b then .isTrue (by rw [h]) else .isFalse (by intro hc; cases hc; exact h rfl)
  | .ok a, .ok b =>
    if h : a = b then .isTrue (by rw [h]) else .isFalse (by intro hc; cases hc; exact h rfl)
  | .error _, .ok _ => .isFalse (by intro hc; cases hc)
  | .ok _, .error _ => .isFalse (by intro hc; cases hc)

/-- `num_eval_questions = 25` from the notebook. -/
def num_eval_questions : Nat := 25

/-- The notebook keeps the first 20 documents: `eval_documents = documents[0:20]`. -/
def pool_doc_count : Nat := 20

/-- Core of Python `random.sample(pool, k)`: `k` selection steps driven by the
process-global random stream `g` (indexed from `step`); each step picks a
position in the remaining pool and removes it (sampling without replacement). -/
def pySampleCore (g : Nat → Nat) : Nat → Nat → List String → List String
  | _, 0, _ => []
  | step, k + 1, pool =>
    let i := g step % pool.length
    pool.getD i "" :: pySampleCore g (step + 1) k (pool.eraseIdx i)

/-- Python `random.sample(pool, k)`: raises `ValueError` when `k` exceeds the
population size, otherwise draws `k` items without replacement using the
process-global random stream `g`. -/
def pySample (g : Nat → Nat) (pool : List String) (k : Nat) : Except String (List String) :=
  if k ≤ pool.length then .ok (pySampleCore g 0 k pool)
  else .error "ValueError: Sample larger than population or is negative"

/-- The llama-index global `Settings` object: the three fields the notebook
assigns (`Settings.llm`, `Settings.chunk_size`, `Settings.chunk_overlap`). -/
structure Settings where
  llm : String
  chunk_size : Nat
  chunk_overlap : Nat
deriving DecidableEq, Repr

/-- The global `Settings` values written by
`evaluate_response_time_and_accuracy` for a given chunk size:
`Settings.llm = OpenAI(model="gpt-3.5-turbo")`, `Settings.chunk_size = chunk_size`,
`Settings.chunk_overlap = chunk_size // 5`. -/
def variant_settings (chunk_size : Nat) : Settings :=
  { llm := "gpt-3.5-turbo", chunk_size := chunk_size, chunk_overlap := chunk_size / 5 }

/-- `VectorStoreIndex.from_documents(eval_documents)`: the index is a fresh
artifact determined by the documents and the global settings in force when it
is built (splitter/embedder internals are out of scope). -/
structure VectorStoreIndex where
  docs : List String
  cfg : Settings
deriving DecidableEq, Repr

/-- The vector index built inside `evaluate_response_time_and_accuracy`:
fresh per call, from `eval_documents` under the just-written settings. -/
def variant_index (docs : List String) (chunk_size : Nat) : VectorStoreIndex :=
  { docs := docs, cfg := variant_settings chunk_size }

/-- The collaborator outcomes for one question: the query-engine call
(returning the elapsed wall-clock time on success), the faithfulness judge
call and the relevancy judge call.  `Except.error` models a raised exception. -/
structure Outcome where
  queryCall : Except String ℚ
  faithCall : Except String Bool
  relCall : Except String Bool

/-- One iteration of the evaluation loop body for one question:
`query_engine.query`, then `faithfulness_gpt4.evaluate_response(...).passing`,
then `relevancy_gpt4.evaluate_response(...).passing`.  Any exception
propagates immediately; there is no try/except and no retry in the notebook. -/
def questionStep (o : Outcome) : Except String (ℚ × Bool × Bool) := do
  let t ← o.queryCall
  let f ← o.faithCall
  let r ← o.relCall
  .ok (t, f, r)

/-- Per-question result recorded by the loop: question, elapsed time of the
query call, and the two boolean verdicts. -/
structure Record where
  question : String
  elapsed : ℚ
  faithPass : Bool
  relPass : Bool
deriving DecidableEq, Repr

/-- The `for question in eval_questions` loop: sequential, in order; the
first uncaught exception aborts the whole loop (later questions are never
evaluated). -/
def runQuestions (outs : String → Outcome) : List String → Except String (List Record)
  | [] => .ok []
  | q :: rest =>
    match questionStep (outs q) with
    | .error e => .error e
    | .ok (t, f, r) =>
      match runQuestions outs rest with
      | .error e => .error e
      | .ok tail => .ok ({ question := q, elapsed := t, faithPass := f, relPass := r } :: tail)

/-- The per-variant summary: the index that was built, the per-question
records, and the three averages returned by
`evaluate_response_time_and_accuracy`. -/
structure Summary where
  index : VectorStoreIndex
  records : List Record
  average_response_time : ℚ
  average_faithfulness : ℚ
  average_relevancy : ℚ
deriving DecidableEq, Repr

/-- `evaluate_response_time_and_accuracy(chunk_size, eval_questions)`.
`sGlobal` is the global `Settings` state on entry (the function only writes
it, never reads it); the returned first component is the global `Settings`
state after the call.  Division by `num_questions = 0` is Python's
`ZeroDivisionError`. -/
def evaluate_response_time_and_accuracy (sGlobal : Settings) (docs : List String)
    (outs : String → Outcome) (chunk_size : Nat) (eval_questions : List String) :
    Settings × Except String Summary :=
  let vector_index := variant_index docs chunk_size
  let num_questions := eval_questions.length
  (variant_settings chunk_size,
    match runQuestions outs eval_questions with
    | .error e => .error e
    | .ok recs =>
      if num_questions = 0 then .error "ZeroDivisionError"
      else
        .ok
          { index := vector_index
            records := recs
            average_response_time := (recs.map Record.elapsed).sum / (num_questions : ℚ)
            average_faithfulness := ((recs.filter Record.faithPass).length : ℚ) / (num_questions : ℚ)
            average_relevancy := ((recs.filter Record.relPass).length : ℚ) / (num_questions : ℚ) })

/-- `chunk_sizes = [128, 256]`. -/
def chunk_sizes : List Nat := [128, 256]

/-- The `for chunk_size in chunk_sizes` loop: evaluates every chunk size
against the same `k_eval_questions`, threading the global `Settings` state
through the successive calls. -/
def runSession (s0 : Settings) (docs : List String) (outs : String → Outcome)
    (k_eval_questions : List String) : Settings × List (Nat × Except String Summary) :=
  chunk_sizes.foldl
    (fun acc c =>
      let r := evaluate_response_time_and_accuracy acc.1 docs outs c k_eval_questions
      (r.1, acc.2 ++ [(c, r.2)]))
    (s0, [])

/-- Benchmark generation:
`eval_documents = documents[0:20]`, one generated question per content node of
those documents (`generate_questions_from_nodes`, collaborator `qgen` applied
to each node produced by `nodesOf`), then
`k_eval_questions = random.sample(eval_questions, sample_size)`.
Returns the number of question-generation collaborator calls made together
with the sampling result. -/
def benchmark_generate (g : Nat → Nat) (qgen : String → String)
    (nodesOf : String → List String) (documents : List String) (sample_size : Nat) :
    Nat × Except String (List String) :=
  let eval_documents := documents.take pool_doc_count
  let nodes := (eval_documents.map nodesOf).flatten
  let eval_questions := nodes.map qgen
  (nodes.length, pySample g eval_questions sample_size)

/-- One whole comparison session: generate the frozen question set once, then
run every chunk-size variant against it. -/
def comparisonSession (g : Nat → Nat) (qgen : String → String)
    (nodesOf : String → List String) (documents : List String) (s0 : Settings)
    (outs : String → Outcome) :
    Except String (List String × (Settings × List (Nat × Except String Summary))) :=
  match (benchmark_generate g qgen nodesOf documents num_eval_questions).2 with
  | .error e => .error e
  | .ok k_eval_questions =>
    .ok (k_eval_questions, runSession s0 (documents.take pool_doc_count) outs k_eval_questions)

/-- The assignment loop of `rerank_documents`:
`similarity_scores[index] = reranked_similarity_scores[i]` for each result,
over an accumulator initialised to `[0] * len(chunks)`.  A result index out of
range is Python's `IndexError`. -/
def assignScores : List (Nat × ℚ) → List ℚ → Except String (List ℚ)
  | [], acc => .ok acc
  | (i, v) :: rest, acc =>
    if i < acc.length then assignScores rest (acc.set i v)
    else .error "IndexError"

/-- `rerank_documents(query, chunks)`: one call to the Cohere rerank
collaborator `rr` (returning `(index, relevance_score)` result pairs, possibly
reordered by score), whose scores are then written back into original chunk
order over a zero-initialised score list. -/
def rerank_documents (rr : String → List String → List (Nat × ℚ))
    (query : String) (chunks : List String) : Except String (List ℚ) :=
  assignScores (rr query chunks) (List.replicate chunks.length 0)

/-- The header-prefixed candidate built by `compare_chunk_similarities`:
`f"Document Title: {document_title}\n\n{chunk_text}"`. -/
def header_prefixed (document_title chunk_text : String) : String :=
  "Document Title: " ++ document_title ++ "\n\n" ++ chunk_text

/-- `compare_chunk_similarities(chunk_index, chunks, document_title, query)`:
submits the raw chunk and the header-prefixed chunk together in a single
`rerank_documents` call and reports
`(similarity_scores[0], similarity_scores[1])` — the pair the notebook
prints as "without header" / "with header". -/
def compare_chunk_similarities (rr : String → List String → List (Nat × ℚ))
    (chunk_index : Nat) (chunks : List String) (document_title query : String) :
    Except String (ℚ × ℚ) :=
  match chunks[chunk_index]? with
  | none => .error "IndexError"
  | some chunk_text =>
    match rerank_documents rr query [chunk_text, header_prefixed document_title chunk_text] with
    | .error e => .error e
    | .ok similarity_scores =>
      match similarity_scores[0]?, similarity_scores[1]? with
      | some a, some b => .ok (a, b)
      | _, _ => .error "IndexError"

/-- Concrete collaborator in which every call succeeds: every query takes 2
seconds, every faithfulness verdict passes, every relevancy verdict fails. -/
def outsOk : String → Outcome :=
  fun _ => { queryCall := .ok 2, faithCall := .ok true, relCall := .ok false }

/-- Concrete collaborator in which the query-engine call for question `"q1"`
raises and every other call succeeds. -/
def outsQueryErr : String → Outcome :=
  fun q =>
    if q = "q1" then { queryCall := .error "APITimeout", faithCall := .ok true, relCall := .ok true }
    else { queryCall := .ok 1, faithCall := .ok true, relCall := .ok true }

/-- Concrete collaborator in which the faithfulness-judge call for question
`"qj"` raises (as a judge call timing out does, on every attempt) and every
other call succeeds. -/
def outsJudgeErr : String → Outcome :=
  fun q =>
    if q = "qj" then { queryCall := .ok 1, faithCall := .error "JudgeTimeout", relCall := .ok true }
    else { queryCall := .ok 1, faithCall := .ok true, relCall := .ok true }

/-- Rigged reranking collaborator that always returns its results reversed:
candidate 1 first (with score 9), candidate 0 second (with score 3). -/
def rrRev : String → List String → List (Nat × ℚ) :=
  fun _ _ => [(1, 9), (0, 3)]

/-- Reranking collaborator returning results for only a strict subset of the
input indices: index 1 alone, with score 5. -/
def rrPartial : String → List String → List (Nat × ℚ) :=
  fun _ _ => [(1, 5)]

/-- The summary computed by `evaluate_response_time_and_accuracy` on the
all-successes collaborator `outsOk` over the two questions `"a"`, `"b"`. -/
def sampleSummary : Summary :=
  { index := variant_index ["d"] 128
    records :=
      [{ question := "a", elapsed := 2, faithPass := true, relPass := false },
       { question := "b", elapsed := 2, faithPass := true, relPass := false }]
    average_response_time := 2
    average_faithfulness := 1
    average_relevancy := 0 }

/-- Helper: the element drawn at a valid position, put back in front of the
remainder of the pool, is a permutation of the pool. -/
theorem getD_cons_eraseIdx_perm :
    ∀ (l : List String) (i : Nat), i < l.length →
      List.Perm (l.getD i "" :: l.eraseIdx i) l := by
  intro l
  induction l with
  | nil => intro i h; simp at h
  | cons a t ih =>
    intro i h
    cases i with
    | zero => simp
    | succ n =>
      have hn : n < t.length := by simpa using h
      have h1 : List.Perm (t.getD n "" :: a :: t.eraseIdx n) (a :: t.getD n "" :: t.eraseIdx n) :=
        List.Perm.swap a (t.getD n "") (t.eraseIdx n)
      have h2 : List.Perm (a :: t.getD n "" :: t.eraseIdx n) (a :: t) :=
        List.Perm.cons a (ih n hn)
      simpa using h1.trans h2

/-- Helper: a sample of `k ≤ pool.length` draws has length exactly `k`. -/
theorem pySampleCore_length (g : Nat → Nat) :
    ∀ (k step : Nat) (pool : List String), k ≤ pool.length →
      (pySampleCore g step k pool).length = k := by
  intro k
  induction k with
  | zero => intro step pool _; rfl
  | succ n ih =>
    intro step pool h
    have hpos : 0 < pool.length := Nat.lt_of_lt_of_le (Nat.succ_pos n) h
    have hilt : g step % pool.length < pool.length := Nat.mod_lt _ hpos
    have hlen : n ≤ (pool.eraseIdx (g step % pool.length)).length := by
      rw [List.length_eraseIdx_of_lt hilt]; omega
    simp only [pySampleCore, List.length_cons]
    rw [ih (step + 1) _ hlen]

/-- Helper: a sample is a subpermutation of the pool: it is drawn from
distinct positions, without replacement. -/
theorem pySampleCore_subperm (g : Nat → Nat) :
    ∀ (k step : Nat) (pool : List String), k ≤ pool.length →
      List.Subperm (pySampleCore g step k pool) pool := by
  intro k
  induction k with
  | zero => intro step pool _; exact List.nil_subperm
  | succ n ih =>
    intro step pool h
    have hpos : 0 < pool.length := Nat.lt_of_lt_of_le (Nat.succ_pos n) h
    have hilt : g step % pool.length < pool.length := Nat.mod_lt _ hpos
    have hlen : n ≤ (pool.eraseIdx (g step % pool.length)).length := by
      rw [List.length_eraseIdx_of_lt hilt]; omega
    obtain ⟨u, hu, hsub⟩ := ih (step + 1) (pool.eraseIdx (g step % pool.length)) hlen
    have hstep :
        List.Subperm
          (pool.getD (g step % pool.length) "" ::
            pySampleCore g (step + 1) n (pool.eraseIdx (g step % pool.length)))
          (pool.getD (g step % pool.length) "" :: pool.eraseIdx (g step % pool.length)) :=
      ⟨pool.getD (g step % pool.length) "" :: u,
        List.Perm.cons _ hu, List.Sublist.cons₂ _ hsub⟩
    have hperm := getD_cons_eraseIdx_perm pool (g step % pool.length) hilt
    simpa only [pySampleCore] using hstep.trans hperm.subperm

/-- Helper: `questionStep` on an outcome whose three calls all succeed. -/
theorem questionStep_ok (a : ℚ) (b c : Bool) :
    questionStep { queryCall := .ok a, faithCall := .ok b, relCall := .ok c } = .ok (a, b, c) := rfl

/-- Helper: a raised query-engine call aborts the question step with its error. -/
theorem questionStep_query_error (o : Outcome) (e : String) (h : o.queryCall = .error e) :
    questionStep o = .error e := by
  unfold questionStep
  rw [h]
  rfl

/-- Helper: a raised faithfulness-judge call aborts the question step with its error. -/
theorem questionStep_faith_error (o : Outcome) (t : ℚ) (e : String)
    (h1 : o.queryCall = .ok t) (h2 : o.faithCall = .error e) :
    questionStep o = .error e := by
  unfold questionStep
  rw [h1, h2]
  rfl

/-- Helper: a raised relevancy-judge call aborts the question step with its error. -/
theorem questionStep_rel_error (o : Outcome) (t : ℚ) (f : Bool) (e : String)
    (h1 : o.queryCall = .ok t) (h2 : o.faithCall = .ok f) (h3 : o.relCall = .error e) :
    questionStep o = .error e := by
  unfold questionStep
  rw [h1, h2, h3]
  rfl

/-- Helper: a successful loop run records exactly the input questions, in order. -/
theorem runQuestions_map_question (outs : String → Outcome) :
    ∀ (qs : List String) (recs : List Record),
      runQuestions outs qs = .ok recs → recs.map Record.question = qs := by
  intro qs
  induction qs with
  | nil =>
    intro recs h
    simp only [runQuestions, Except.ok.injEq] at h
    rw [← h]
    rfl
  | cons q rest ih =>
    intro recs h
    simp only [runQuestions] at h
    cases hstep : questionStep (outs q) with
    | error e => rw [hstep] at h; cases h
    | ok x =>
      obtain ⟨t, f, r⟩ := x
      rw [hstep] at h
      cases hrest : runQuestions outs rest with
      | error e => rw [hrest] at h; cases h
      | ok tail =>
        rw [hrest] at h
        simp only [Except.ok.injEq] at h
        rw [← h]
        simp only [List.map_cons]
        rw [ih tail hrest]

/-- Helper: the loop aborts with the first raised exception: with every
question before `q` succeeding and `q`'s step raising `e`, the whole loop
returns `e`, whatever comes after `q`. -/
theorem runQuestions_append_error (outs : String → Outcome) (q e : String)
    (hq : questionStep (outs q) = .error e) :
    ∀ (pre post : List String),
      (∀ p ∈ pre, ∃ x, questionStep (outs p) = .ok x) →
      runQuestions outs (pre ++ q :: post) = .error e := by
  intro pre
  induction pre with
  | nil =>
    intro post _
    simp only [List.nil_append, runQuestions, hq]
  | cons p rest ih =>
    intro post h
    obtain ⟨x, hx⟩ := h p (List.mem_cons_self p rest)
    obtain ⟨t, f, r⟩ := x
    have htail := ih post (fun a ha => h a (List.mem_cons_of_mem p ha))
    simp only [List.cons_append, runQuestions, hx]
    rw [show runQuestions outs (rest.append (q :: post)) = Except.error e from htail]

/-- Helper: on an all-successes collaborator the loop returns the records
built from the per-question outcomes. -/
theorem runQuestions_ok_of_all_ok (outs : String → Outcome)
    (t : String → ℚ) (f r : String → Bool) :
    ∀ qs : List String,
      (∀ q ∈ qs, outs q = { queryCall := .ok (t q), faithCall := .ok (f q), relCall := .ok (r q) }) →
      runQuestions outs qs =
        .ok (qs.map fun q => { question := q, elapsed := t q, faithPass := f q, relPass := r q }) := by
  intro qs
  induction qs with
  | nil => intro _; rfl
  | cons q rest ih =>
    intro h
    have hq := h q (List.mem_cons_self q rest)
    have hrest := ih (fun p hp => h p (List.mem_cons_of_mem q hp))
    simp only [runQuestions, hq, questionStep_ok, hrest, List.map_cons]

/-- Helper: a summary returned by `evaluate_response_time_and_accuracy`
records exactly the questions it was given, in order. -/
theorem evaluate_ok_records (sG : Settings) (docs : List String)
    (outs : String → Outcome) (c : Nat) (qs : List String) (s : Summary)
    (h : (evaluate_response_time_and_accuracy sG docs outs c qs).2 = .ok s) :
    s.records.map Record.question = qs := by
  simp only [evaluate_response_time_and_accuracy] at h
  split at h
  · cases h
  · rename_i recs hrun
    split at h
    · cases h
    · simp only [Except.ok.injEq] at h
      rw [← h]
      exact runQuestions_map_question outs qs recs hrun

/-- Helper: the invariant of the score-assignment loop: with every result
index in range it succeeds, preserves the length, and leaves every position
that no result names unchanged. -/
theorem assignScores_spec :
    ∀ (results : List (Nat × ℚ)) (acc : List ℚ),
      (∀ p ∈ results, p.1 < acc.length) →
      ∃ l, assignScores results acc = .ok l ∧ l.length = acc.length ∧
        ∀ j : Nat, (∀ p ∈ results, p.1 ≠ j) → l[j]? = acc[j]? := by
  intro results
  induction results with
  | nil => intro acc _; exact ⟨acc, rfl, rfl, fun _ _ => rfl⟩
  | cons p rest ih =>
    intro acc hlt
    obtain ⟨i, v⟩ := p
    have hi : i < acc.length := hlt (i, v) (List.mem_cons_self _ rest)
    have hlt2 : ∀ p ∈ rest, p.1 < (acc.set i v).length := by
      intro p hp
      rw [List.length_set]
      exact hlt p (List.mem_cons_of_mem _ hp)
    obtain ⟨l, h1, h2, h3⟩ := ih (acc.set i v) hlt2
    refine ⟨l, ?_, ?_, ?_⟩
    · simp only [assignScores, if_pos hi, h1]
    · rw [h2, List.length_set]
    · intro j hj
      have hij : i ≠ j := hj (i, v) (List.mem_cons_self _ rest)
      rw [h3 j (fun p hp => hj p (List.mem_cons_of_mem _ hp))]
      exact List.getElem?_set_ne hij

/-- Helper: the chunk-size loop evaluates 128 then 256 against the same
question list, threading the mutated global settings. -/
theorem runSession_eq (s0 : Settings) (docs : List String) (outs : String → Outcome)
    (qs : List String) :
    runSession s0 docs outs qs =
      (variant_settings 256,
        [(128, (evaluate_response_time_and_accuracy s0 docs outs 128 qs).2),
         (256, (evaluate_response_time_and_accuracy (variant_settings 128) docs outs 256 qs).2)]) :=
  rfl

/-- Claim C9: for every chunk size `c` passed to the variant evaluation, the
chunk overlap used to build that variant's index is exactly `c / 5` (integer
floor division): overlap 25 for `c = 128` and 51 for `c = 256`; the overlap
is an absolute count derived from the chunk size. -/
theorem chunk_overlap_is_fifth_of_chunk_size (sG : Settings) (docs : List String)
    (outs : String → Outcome) (c : Nat) (qs : List String) :
    (variant_index docs c).cfg.chunk_overlap = c / 5 ∧
    (evaluate_response_time_and_accuracy sG docs outs c qs).1.chunk_overlap = c / 5 ∧
    (variant_index docs 128).cfg.chunk_overlap = 25 ∧
    (variant_index docs 256).cfg.chunk_overlap = 51 :=
  ⟨rfl, rfl, rfl, rfl⟩

/-- Claim C8, counterexample: the session-level `Settings` object is shared
mutable state between the two pipeline variants: evaluating the second
variant (chunk size 256) overwrites the settings written by the first
variant's evaluation (chunk size 128), so the state after the session differs
from the state after the first variant. -/
theorem shared_settings_mutated_between_variants :
    (runSession { llm := "gpt-4o", chunk_size := 1024, chunk_overlap := 20 }
        ["d"] outsOk ["q"]).1 ≠
      (evaluate_response_time_and_accuracy
        { llm := "gpt-4o", chunk_size := 1024, chunk_overlap := 20 }
        ["d"] outsOk 128 ["q"]).1 ∧
    (evaluate_response_time_and_accuracy
        { llm := "gpt-4o", chunk_size := 1024, chunk_overlap := 20 }
        ["d"] outsOk 128 ["q"]).1 = variant_settings 128 ∧
    (runSession { llm := "gpt-4o", chunk_size := 1024, chunk_overlap := 20 }
        ["d"] outsOk ["q"]).1 = variant_settings 256 := by
  decide

/-- Claim C8, amended: each variant evaluation overwrites every field of the
shared global `Settings` (llm, chunk size, overlap) before building its own
fresh index, so although the settings object is shared and mutated between
variants, a variant's evaluation result does not depend on the settings state
left behind by the previously evaluated variant. -/
theorem variant_result_independent_of_incoming_settings (s1 s2 : Settings)
    (docs : List String) (outs : String → Outcome) (c : Nat) (qs : List String) :
    (evaluate_response_time_and_accuracy s1 docs outs c qs).2 =
      (evaluate_response_time_and_accuracy s2 docs outs c qs).2 ∧
    (evaluate_response_time_and_accuracy s1 docs outs c qs).1 = variant_settings c :=
  ⟨rfl, rfl⟩

/-- Claim C2: for every variant evaluation over a non-empty question list
that returns a summary, the summary holds one record per question, its mean
latency is the arithmetic mean of the per-question elapsed times, its
faithfulness and relevancy rates are the counts of passing verdicts divided
by `N = qs.length`, and both rates lie in `[0, 1]` — the denominator of every
rate is exactly `N`. -/
theorem variant_summary_aggregation (sG : Settings) (docs : List String)
    (outs : String → Outcome) (c : Nat) (qs : List String) (s : Summary)
    (hne : qs ≠ [])
    (hok : (evaluate_response_time_and_accuracy sG docs outs c qs).2 = .ok s) :
    s.records.length = qs.length ∧
    s.average_response_time = (s.records.map Record.elapsed).sum / (qs.length : ℚ) ∧
    s.average_faithfulness = ((s.records.filter Record.faithPass).length : ℚ) / (qs.length : ℚ) ∧
    s.average_relevancy = ((s.records.filter Record.relPass).length : ℚ) / (qs.length : ℚ) ∧
    0 ≤ s.average_faithfulness ∧ s.average_faithfulness ≤ 1 ∧
    0 ≤ s.average_relevancy ∧ s.average_relevancy ≤ 1 := by
  simp only [evaluate_response_time_and_accuracy] at hok
  split at hok
  · cases hok
  · rename_i recs hrun
    split at hok
    · cases hok
    · simp only [Except.ok.injEq] at hok
      subst hok
      have hlenr : recs.length = qs.length := by
        have hq := congrArg List.length (runQuestions_map_question outs qs recs hrun)
        simpa using hq
      have hpos : (0 : ℚ) < (qs.length : ℚ) := by
        have hp : 0 < qs.length := List.length_pos.mpr hne
        exact_mod_cast hp
      have hflen : (recs.filter Record.faithPass).length ≤ qs.length := by
        calc (recs.filter Record.faithPass).length ≤ recs.length := List.length_filter_le _ _
          _ = qs.length := hlenr
      have hrlen : (recs.filter Record.relPass).length ≤ qs.length := by
        calc (recs.filter Record.relPass).length ≤ recs.length := List.length_filter_le _ _
          _ = qs.length := hlenr
      exact ⟨hlenr, rfl, rfl, rfl,
        div_nonneg (Nat.cast_nonneg _) (Nat.cast_nonneg _),
        (div_le_one hpos).mpr (by exact_mod_cast hflen),
        div_nonneg (Nat.cast_nonneg _) (Nat.cast_nonneg _),
        (div_le_one hpos).mpr (by exact_mod_cast hrlen)⟩

/-- Witness for claim C2 at a concrete input. -/
theorem variant_summary_aggregation_witness :
    sampleSummary.records.length = (["a", "b"] : List String).length ∧
    sampleSummary.average_response_time =
      (sampleSummary.records.map Record.elapsed).sum / ((["a", "b"] : List String).length : ℚ) ∧
    sampleSummary.average_faithfulness =
      ((sampleSummary.records.filter Record.faithPass).length : ℚ) /
        ((["a", "b"] : List String).length : ℚ) ∧
    sampleSummary.average_relevancy =
      ((sampleSummary.records.filter Record.relPass).length : ℚ) /
        ((["a", "b"] : List String).length : ℚ) ∧
    0 ≤ sampleSummary.average_faithfulness ∧ sampleSummary.average_faithfulness ≤ 1 ∧
    0 ≤ sampleSummary.average_relevancy ∧ sampleSummary.average_relevancy ≤ 1 :=
  variant_summary_aggregation { llm := "gpt-4o", chunk_size := 0, chunk_overlap := 0 }
    ["d"] outsOk 128 ["a", "b"] sampleSummary (by decide)
    (by
      simp only [evaluate_response_time_and_accuracy, runQuestions, outsOk, questionStep_ok,
        sampleSummary, variant_index, variant_settings]
      norm_num)

/-- Claim C3, counterexample: a single erroring query call aborts the whole
variant evaluation.  With the collaborator `outsQueryErr`, whose query call
for `"q1"` raises `"APITimeout"`, the run over `["q1", "q2"]` returns that
error instead of a summary: the question is not scored as a failing verdict,
the loop does not proceed to `"q2"`, and no denominator exists. -/
theorem eval_aborts_on_query_error_concrete :
    (evaluate_response_time_and_accuracy { llm := "g", chunk_size := 0, chunk_overlap := 0 }
      ["d"] outsQueryErr 128 ["q1", "q2"]).2 = .error "APITimeout" := by
  decide

/-- Claim C3, amended: if the query, generation, or judge call for a question
errors, the exception propagates and the evaluation run aborts at that
question with that error: later questions are not evaluated and no summary
(hence no denominator) is produced.  Here every question before `q` succeeds,
`q`'s query call raises `e`, and the run returns `e` whatever follows `q`. -/
theorem eval_aborts_on_first_error (sG : Settings) (docs : List String)
    (outs : String → Outcome) (c : Nat) (pre post : List String) (q e : String)
    (hpre : ∀ p ∈ pre, ∃ x, questionStep (outs p) = .ok x)
    (hq : (outs q).queryCall = .error e) :
    (evaluate_response_time_and_accuracy sG docs outs c (pre ++ q :: post)).2 = .error e := by
  have hstep := questionStep_query_error (outs q) e hq
  have hrun := runQuestions_append_error outs q e hstep pre post hpre
  simp only [evaluate_response_time_and_accuracy, hrun]

/-- Witness for the amended claim C3 at a concrete input. -/
theorem eval_aborts_on_first_error_witness :
    (evaluate_response_time_and_accuracy { llm := "g", chunk_size := 0, chunk_overlap := 0 }
      ["d"] outsQueryErr 256 (["q0"] ++ "q1" :: ["q2"])).2 = .error "APITimeout" :=
  eval_aborts_on_first_error _ _ _ _ _ _ _ _
    (by
      intro p hp
      simp only [List.mem_singleton] at hp
      subst hp
      exact ⟨(1, true, true), rfl⟩)
    (by decide)

/-- Claim C4, counterexample: a judge call that errors (as a judge call
timing out on every attempt does) is not retried and does not fall back to a
`False` verdict: with the collaborator `outsJudgeErr`, whose faithfulness
judge call for `"qj"` raises `"JudgeTimeout"`, the run over the singleton set
`["qj"]` returns that error — it does not complete with denominator 1. -/
theorem eval_aborts_on_judge_error_concrete :
    (evaluate_response_time_and_accuracy { llm := "g", chunk_size := 0, chunk_overlap := 0 }
      ["d"] outsJudgeErr 128 ["qj"]).2 = .error "JudgeTimeout" := by
  decide

/-- Claim C4, amended: a judge invocation (faithfulness or relevancy) whose
underlying call errors is not retried and no fail verdict is recorded: the
exception propagates and the variant evaluation aborts with that error, so no
summary and no denominator are produced. -/
theorem judge_error_not_retried (sG : Settings) (docs : List String)
    (outs : String → Outcome) (c : Nat) (pre post : List String) (q e : String) (t : ℚ)
    (hpre : ∀ p ∈ pre, ∃ x, questionStep (outs p) = .ok x)
    (ht : (outs q).queryCall = .ok t)
    (hjudge : (outs q).faithCall = .error e ∨
      ∃ f, (outs q).faithCall = .ok f ∧ (outs q).relCall = .error e) :
    (evaluate_response_time_and_accuracy sG docs outs c (pre ++ q :: post)).2 = .error e := by
  have hstep : questionStep (outs q) = .error e := by
    cases hjudge with
    | inl h => exact questionStep_faith_error (outs q) t e ht h
    | inr h =>
      obtain ⟨f, h1, h2⟩ := h
      exact questionStep_rel_error (outs q) t f e ht h1 h2
  have hrun := runQuestions_append_error outs q e hstep pre post hpre
  simp only [evaluate_response_time_and_accuracy, hrun]

/-- Witness for the amended claim C4 at a concrete input. -/
theorem judge_error_not_retried_witness :
    (evaluate_response_time_and_accuracy { llm := "g", chunk_size := 0, chunk_overlap := 0 }
      ["d"] outsJudgeErr 128 (["q0"] ++ "qj" :: ["q2"])).2 = .error "JudgeTimeout" :=
  judge_error_not_retried _ _ _ _ _ _ _ _ 1
    (by
      intro p hp
      simp only [List.mem_singleton] at hp
      subst hp
      exact ⟨(1, true, true), rfl⟩)
    rfl
    (Or.inl rfl)

/-- Claim C5: the Augmentation Comparator submits the raw chunk and the
header-prefixed chunk together in one scoring call and returns the pair
`(score_without, score_with)` in the original input order: for every
permutation of the two result indices returned by the scoring collaborator,
the score reported at position `i` is the one the collaborator assigned to
input candidate `i`. -/
theorem compare_preserves_input_order (rr : String → List String → List (Nat × ℚ))
    (chunk_index : Nat) (chunks : List String) (document_title query c : String) (a b : ℚ)
    (hc : chunks[chunk_index]? = some c)
    (hrr : rr query [c, header_prefixed document_title c] = [(0, a), (1, b)] ∨
      rr query [c, header_prefixed document_title c] = [(1, b), (0, a)]) :
    compare_chunk_similarities rr chunk_index chunks document_title query = .ok (a, b) := by
  cases hrr with
  | inl h =>
    simp [compare_chunk_similarities, hc, rerank_documents, h, assignScores, List.replicate]
  | inr h =>
    simp [compare_chunk_similarities, hc, rerank_documents, h, assignScores, List.replicate]

/-- Witness for claim C5 at a concrete input: the rigged collaborator
`rrRev` always returns its results reversed, yet the pair comes back in
input order. -/
theorem compare_preserves_input_order_witness :
    compare_chunk_similarities rrRev 0 ["c0"] "T" "nike query" = .ok (3, 9) :=
  compare_preserves_input_order rrRev 0 ["c0"] "T" "nike query" "c0" 3 9 rfl (Or.inr rfl)

/-- Claim C10: when the reranking collaborator returns results covering only
a subset of the input indices, `rerank_documents` still returns (without
raising) a score list of the same length as the input, with score 0 at every
input index absent from the results. -/
theorem rerank_defaults_missing_indices_to_zero (rr : String → List String → List (Nat × ℚ))
    (query : String) (chunks : List String)
    (hne : chunks ≠ [])
    (hidx : ∀ p ∈ rr query chunks, p.1 < chunks.length) :
    ∃ l, rerank_documents rr query chunks = .ok l ∧
      l.length = chunks.length ∧
      ∀ j, j < chunks.length → (∀ p ∈ rr query chunks, p.1 ≠ j) → l[j]? = some 0 := by
  have hidx2 : ∀ p ∈ rr query chunks, p.1 < (List.replicate chunks.length (0 : ℚ)).length := by
    intro p hp
    rw [List.length_replicate]
    exact hidx p hp
  obtain ⟨l, h1, h2, h3⟩ :=
    assignScores_spec (rr query chunks) (List.replicate chunks.length 0) hidx2
  refine ⟨l, h1, by rw [h2, List.length_replicate], ?_⟩
  intro j hj hnot
  rw [h3 j hnot]
  exact List.getElem?_replicate_of_lt hj

/-- Witness for claim C10 at a concrete input: a result set covering only
index 1 of three chunks. -/
theorem rerank_defaults_missing_indices_to_zero_witness :
    ∃ l, rerank_documents rrPartial "q" ["x", "y", "z"] = .ok l ∧
      l.length = (["x", "y", "z"] : List String).length ∧
      ∀ j, j < (["x", "y", "z"] : List String).length →
        (∀ p ∈ rrPartial "q" ["x", "y", "z"], p.1 ≠ j) → l[j]? = some 0 :=
  rerank_defaults_missing_indices_to_zero rrPartial "q" ["x", "y", "z"]
    (by decide) (by decide)

/-- Claim C6, counterexample: the frozen question set depends on the
process-global random state, not on a provided explicit seed: two runs of
benchmark generation with identical documents, pool, and sample size but
different global random streams produce different frozen question sets. -/
theorem sample_depends_on_global_state :
    benchmark_generate (fun _ => 0) (fun s => s) (fun d => [d]) ["n1", "n2"] 1 =
      (2, .ok ["n1"]) ∧
    benchmark_generate (fun _ => 1) (fun s => s) (fun d => [d]) ["n1", "n2"] 1 =
      (2, .ok ["n2"]) := by
  decide

/-- Claim C6, amended: the benchmark sample is drawn without replacement (a
subpermutation of the candidate pool, of length exactly `sample_size`, hence
duplicate-free whenever the pool is) as a deterministic function of the pool
and the process-global random state; the code takes no explicit seed
parameter, so reproducibility depends on that global state. -/
theorem sample_without_replacement_deterministic (g : Nat → Nat) (pool : List String) (k : Nat)
    (h : k ≤ pool.length) :
    ∃ l, pySample g pool k = .ok l ∧ l.length = k ∧ List.Subperm l pool ∧
      (pool.Nodup → l.Nodup) := by
  refine ⟨pySampleCore g 0 k pool, ?_, pySampleCore_length g k 0 pool h, ?_, ?_⟩
  · simp [pySample, if_pos h]
  · exact pySampleCore_subperm g k 0 pool h
  · intro hnd
    obtain ⟨u, hu, hsub⟩ := pySampleCore_subperm g k 0 pool h
    exact hu.nodup (hsub.nodup hnd)

/-- Witness for the amended claim C6 at a concrete input. -/
theorem sample_without_replacement_deterministic_witness :
    ∃ l, pySample (fun _ => 0) ["a", "b"] 1 = .ok l ∧ l.length = 1 ∧
      List.Subperm l ["a", "b"] ∧ ((["a", "b"] : List String).Nodup → l.Nodup) :=
  sample_without_replacement_deterministic (fun _ => 0) ["a", "b"] 1 (by decide)

/-- Claim C7, counterexample: with one document yielding one candidate
question and `sample_size = 2`, benchmark generation does raise an error
rather than truncating, but only after one question-generation collaborator
call has been made — not before any collaborator call, and not with zero
external calls as the claim states. -/
theorem sampling_error_after_generation_calls_concrete :
    benchmark_generate (fun _ => 0) (fun s => s) (fun d => [d]) ["doc1"] 2 =
      (1, .error "ValueError: Sample larger than population or is negative") := by
  decide

/-- Claim C7, amended: when `sample_size` exceeds the generated candidate
question pool, benchmark generation raises an error (`random.sample`'s
`ValueError`) rather than silently truncating, but the error is raised only
at sampling time, after the question-generation collaborator calls — one per
content node of the first `pool_doc_count` documents — have all been made. -/
theorem sampling_error_after_generation_calls (g : Nat → Nat) (qgen : String → String)
    (nodesOf : String → List String) (documents : List String) (sample_size : Nat)
    (h : (((documents.take pool_doc_count).map nodesOf).flatten).length < sample_size) :
    benchmark_generate g qgen nodesOf documents sample_size =
      ((((documents.take pool_doc_count).map nodesOf).flatten).length,
        .error "ValueError: Sample larger than population or is negative") := by
  have hlen :
      ¬ sample_size ≤ ((((documents.take pool_doc_count).map nodesOf).flatten).map qgen).length := by
    rw [List.length_map]
    omega
  simp only [benchmark_generate, pySample, if_neg hlen]

/-- Witness for the amended claim C7 at a concrete input. -/
theorem sampling_error_after_generation_calls_witness :
    benchmark_generate (fun _ => 0) (fun s => s) (fun d => [d]) ["doc1"] 3 =
      (1, .error "ValueError: Sample larger than population or is negative") :=
  sampling_error_after_generation_calls (fun _ => 0) (fun s => s) (fun d => [d]) ["doc1"] 3
    (by decide)

/-- Claim C1: in every comparison session whose candidate pool holds at
least `num_eval_questions = 25` questions, the frozen question set has
length exactly 25, and the identical list `k_eval_questions` is what every
variant evaluation iterates over — sampling happens once, before the
chunk-size loop, and every variant summary records exactly that list, so no
resampling occurs between variants. -/
theorem frozen_question_set_fixed_and_reused (g : Nat → Nat) (qgen : String → String)
    (nodesOf : String → List String) (documents : List String) (s0 : Settings)
    (outs : String → Outcome)
    (hpool : num_eval_questions ≤
      ((((documents.take pool_doc_count).map nodesOf).flatten).map qgen).length) :
    ∃ kq, comparisonSession g qgen nodesOf documents s0 outs =
        .ok (kq, runSession s0 (documents.take pool_doc_count) outs kq) ∧
      kq.length = num_eval_questions ∧
      ∀ pr ∈ (runSession s0 (documents.take pool_doc_count) outs kq).2,
        ∀ s : Summary, pr.2 = .ok s → s.records.map Record.question = kq := by
  have hsample : pySample g ((((documents.take pool_doc_count).map nodesOf).flatten).map qgen)
      num_eval_questions =
      .ok (pySampleCore g 0 num_eval_questions
        ((((documents.take pool_doc_count).map nodesOf).flatten).map qgen)) := by
    unfold pySample
    rw [if_pos hpool]
  refine ⟨pySampleCore g 0 num_eval_questions
    ((((documents.take pool_doc_count).map nodesOf).flatten).map qgen), ?_,
    pySampleCore_length g num_eval_questions 0
      ((((documents.take pool_doc_count).map nodesOf).flatten).map qgen) hpool, ?_⟩
  · simp only [comparisonSession, benchmark_generate]
    rw [hsample]
  · intro pr hpr s hs
    rw [runSession_eq] at hpr
    simp only [List.mem_cons, List.not_mem_nil, or_false] at hpr
    rcases hpr with h1 | h2
    · subst h1
      dsimp only at hs
      exact evaluate_ok_records _ _ _ _ _ _ hs
    · subst h2
      dsimp only at hs
      exact evaluate_ok_records _ _ _ _ _ _ hs

/-- Witness for claim C1 at a concrete input: 20 documents of two content
nodes each give a candidate pool of 40 questions. -/
theorem frozen_question_set_fixed_and_reused_witness :
    ∃ kq, comparisonSession (fun _ => 0) (fun s => s) (fun d => [d, d])
        (List.replicate 20 "d") { llm := "g", chunk_size := 0, chunk_overlap := 0 } outsOk =
        .ok (kq, runSession { llm := "g", chunk_size := 0, chunk_overlap := 0 }
          ((List.replicate 20 "d").take pool_doc_count) outsOk kq) ∧
      kq.length = num_eval_questions ∧
      ∀ pr ∈ (runSession { llm := "g", chunk_size := 0, chunk_overlap := 0 }
          ((List.replicate 20 "d").take pool_doc_count) outsOk kq).2,
        ∀ s : Summary, pr.2 = .ok s → s.records.map Record.question = kq :=
  frozen_question_set_fixed_and_reused _ _ _ _ _ _ (by decide)

end RAG100X
